import Mathlib

/-!
Verification development for the Bethesda toy-lending-library email service
(`src/index.js`): a shallow embedding of its three Express POST handlers
(`/email/reservation-created`, `/email/waitlist-created`, `/email/status-updated`),
of the shared branded-HTML template wrapper, and of the calls they make to the
external email-delivery collaborator, together with theorems settling the
specification's claims about them.

Modelling choices:
* JSON/JavaScript request-body values are modelled by `JsVal` (absent key =
  `undef`, as produced by destructuring), with JavaScript truthiness and
  string coercion.
* The email-delivery collaborator (`sendEmail`, backed by Resend) is modelled
  by a function `fail : Nat → Bool` giving, for each send attempt of the
  request (0 = first attempt), whether the provider call throws.  A handler
  returns the HTTP response together with the ordered list of send attempts
  (each a fully rendered `{to, subject, html}` record), mirroring the
  sequential `await sendEmail(...)` calls and the surrounding
  `try/catch` that maps any throw to `500 {error: "Failed to send email"}`.
* `process.env.ADMIN_EMAIL` is modelled by `Env.adminEmail : Option String`
  (`none` = unset); the JS guard `if (process.env.ADMIN_EMAIL)` is truthiness,
  so `some ""` behaves like unset.
-/

/-- Model of a JavaScript value as found in a parsed JSON request body
(a missing key destructures to `undefined`). -/
inductive JsVal where
  | undef
  | null
  | bool (b : Bool)
  | num (n : Int)
  | str (s : String)
deriving DecidableEq, Repr

/-- JavaScript truthiness, as used by `!x`, `x ? _ : _` and `x || _`:
`undefined`, `null`, `false`, `0` and `""` are falsy. -/
def JsVal.truthy : JsVal → Bool
  | .undef => false
  | .null => false
  | .bool b => b
  | .num n => n ≠ 0
  | .str s => s ≠ ""

/-- JavaScript string coercion `String(x)`, as also performed by template
interpolation. -/
def JsVal.toStr : JsVal → String
  | .undef => "undefined"
  | .null => "null"
  | .bool b => if b then "true" else "false"
  | .num n => toString n
  | .str s => s

/-- JavaScript strict equality `x === s` against a string literal `s`. -/
def JsVal.eqStr (v : JsVal) (s : String) : Bool :=
  match v with
  | .str t => t = s
  | _ => false

/-- Interpolation `${v || d}` of a value with a string-literal fallback, as in
`${parentName || "there"}`. -/
def JsVal.orDefault (v : JsVal) (d : String) : String :=
  if v.truthy then v.toStr else d

/-- The request body fields destructured by the three handlers; any field the
caller did not supply is `undef`. -/
structure ReqBody where
  parentEmail : JsVal := .undef
  parentName : JsVal := .undef
  childName : JsVal := .undef
  itemName : JsVal := .undef
  newStatus : JsVal := .undef
  preferredDay : JsVal := .undef
  note : JsVal := .undef
deriving DecidableEq, Repr

/-- The argument of one call to the `sendEmail` collaborator:
`sendEmail({ to, subject, html })`.  The `to` field is named `toAddr` here
because `to` is a Lean keyword. -/
structure Email where
  toAddr : String
  subject : String
  html : String
deriving DecidableEq, Repr

/-- The JSON body of an HTTP response of the service. -/
inductive RespBody where
  /-- `{ ok: true }` -/
  | ok
  /-- `{ skipped: true }` -/
  | skipped
  /-- `{ error: msg }` -/
  | error (msg : String)
deriving DecidableEq, Repr

/-- An HTTP response: a status code (`res.json(...)` alone means 200,
`res.status(n).json(...)` means `n`) and a JSON body. -/
structure Response where
  status : Nat
  body : RespBody
deriving DecidableEq, Repr

/-- The process environment as read by the handlers: the optional
administrator notification address `process.env.ADMIN_EMAIL`. -/
structure Env where
  adminEmail : Option String
deriving DecidableEq, Repr

/-- Model of the email-delivery collaborator: `fail i = true` means the
`i`-th send attempt of the current request (0-based) throws. -/
def SendFate : Type := Nat → Bool

/-! ### String helpers modelling the JavaScript string methods used -/

/-- Character-list version of `jsReplaceNewlines`. -/
def replaceNewlinesData : List Char → List Char
  | [] => []
  | c :: cs =>
    if c = '\n' then '<' :: 'b' :: 'r' :: ' ' :: '/' :: '>' :: replaceNewlinesData cs
    else c :: replaceNewlinesData cs

/-- Model of `s.replace(/\n/g, "<br />")`: every newline character is replaced
by the string `<br />`. -/
def jsReplaceNewlines (s : String) : String :=
  ⟨replaceNewlinesData s.data⟩

/-- Model of JavaScript `s.trim()`: drop leading and trailing whitespace. -/
def jsTrim (s : String) : String :=
  ⟨((s.data.dropWhile Char.isWhitespace).reverse.dropWhile Char.isWhitespace).reverse⟩

/-! ### Substring-containment infrastructure for the rendered HTML -/

/-- `pat` occurs contiguously inside `s`. -/
def ContainsSubstr (s pat : String) : Prop :=
  ∃ a b : List Char, s.data = a ++ pat.data ++ b

/-- Character `c` occurs in `s`. -/
def ContainsChar (s : String) (c : Char) : Prop :=
  c ∈ s.data

instance (s : String) (c : Char) : Decidable (ContainsChar s c) := by
  unfold ContainsChar; infer_instance

theorem containsSubstr_self (s : String) : ContainsSubstr s s :=
  ⟨[], [], by simp⟩

theorem contains_left {s pat : String} (t : String) (h : ContainsSubstr s pat) :
    ContainsSubstr (s ++ t) pat := by
  obtain ⟨a, b, hab⟩ := h
  exact ⟨a, b ++ t.data, by simp [String.data_append, hab]⟩

theorem contains_right {s pat : String} (t : String) (h : ContainsSubstr s pat) :
    ContainsSubstr (t ++ s) pat := by
  obtain ⟨a, b, hab⟩ := h
  exact ⟨t.data ++ a, b, by simp [String.data_append, hab]⟩

theorem contains_intro (pre pat suf : String) : ContainsSubstr (pre ++ pat ++ suf) pat :=
  contains_left suf (contains_right pre (containsSubstr_self pat))

theorem contains_of_eq (pre suf : String) {s pat : String} (h : s = pre ++ pat ++ suf) :
    ContainsSubstr s pat := by
  rw [h]; exact contains_intro pre pat suf

theorem contains_mid (pre2 suf3 : String) {x A2 I A3 m1 m3 : String}
    (h2 : A2 = pre2 ++ m1) (h3 : A3 = m3 ++ suf3) :
    ContainsSubstr (x ++ A2 ++ I ++ A3) (m1 ++ I ++ m3) := by
  subst h2 h3
  refine ⟨x.data ++ pre2.data, suf3.data, ?_⟩
  simp [String.data_append, List.append_assoc]

theorem containsChar_append (a b : String) (c : Char) :
    ContainsChar (a ++ b) c ↔ ContainsChar a c ∨ ContainsChar b c := by
  simp [ContainsChar, String.data_append]

theorem not_containsSubstr_of_char (c : Char) {s pat : String}
    (hc : ContainsChar pat c) (hs : ¬ ContainsChar s c) : ¬ ContainsSubstr s pat := by
  rintro ⟨a, b, hab⟩
  refine hs ?_
  unfold ContainsChar at hc ⊢
  rw [hab]
  exact List.mem_append.mpr (Or.inl (List.mem_append.mpr (Or.inr hc)))

/-! ### Constants from `src/index.js` -/

/-- The logo URL interpolated into the branded header. -/
def BETHESDA_LOGO : String :=
  "https://res.cloudinary.com/towson008/image/upload/v1765341466/tp1aouaicde3zpykntkn.png"

/-- The pickup-location/hours info block, included in a branded email exactly
when `showPickupInfo` is true. -/
def PICKUP_INFO_HTML : String := r#"
  <div style="margin-top:16px; padding:12px; background:#003366; border-radius:6px;">
    <p style="margin:0;"><strong>📍 Pickup Location</strong></p>
    <p style="margin:4px 0;">3310 Schmon Parkway, Thorold, ON, L2V 4Y6</p>
    <p style="margin:8px 0 0;">
      <strong>🕒 Pickup Hours</strong><br />
      Monday – Friday: 9:00 AM – 4:00 PM <br/>
      Business Days Only
    </p>
  </div>
"#

/-! ### The branded template wrapper -/

/-- `renderBrandedEmail({ title, content, showPickupInfo = false })`: pure
string composition of header (logo), title, content, optional pickup-info
block, and footer.  In the source `showPickupInfo` defaults to `false`; here
every call site passes it explicitly. -/
def renderBrandedEmail (title : String) (content : String) (showPickupInfo : Bool) : String :=
  r#"
    <div style="background:#f8fafc; padding:24px; font-family:Arial, sans-serif;">
      <div style="max-width:600px; margin:auto; border-radius:8px; overflow:hidden;">
        
        <!-- Header -->
        <div style="background:#003366; padding:20px; text-align:center;">
          <img src=""# ++ BETHESDA_LOGO ++ r#"" alt="Bethesda Toy Lending Library" style="max-width:160px;" />
        </div>

        <!-- Body -->
        <div style="padding:24px; color:#1f2937;">
          <h2 style="color:#003366;">"# ++ title ++ "</h2>\n          " ++ content
    ++ "\n          " ++ (if showPickupInfo then PICKUP_INFO_HTML else "")
    ++ r#"
        </div>

        <!-- Footer -->
        <div style="background:#003366; padding:16px; font-size:12px; text-align:center; color:#ffffff;">
          <p style="margin:0;">Bethesda Toy Lending Library</p>
          <p style="margin:4px 0;">© 2025 Bethesda Services</p>
        </div>

      </div>
    </div>
  "#

/-! ### Route `/email/reservation-created` -/

/-- The `pickupLine` local of the reservation handler:
`preferredDay ? ... : "We will contact you with pick-up details soon."`. -/
def pickupLine (preferredDay : JsVal) : String :=
  if preferredDay.truthy then
    "Preferred pick-up day: <strong>" ++ preferredDay.toStr ++ "</strong>."
  else
    "We will contact you with pick-up details soon."

/-- The optional note paragraph of the reservation recipient email:
`note ? `<p>...${String(note).replace(/\n/g, "<br />").trim()}</p>` : ""`. -/
def noteFragment (note : JsVal) : String :=
  if note.truthy then
    "<p><strong>Your note:</strong><br />" ++ jsTrim (jsReplaceNewlines note.toStr) ++ "</p>"
  else ""

/-- The `content` template literal of the reservation recipient email. -/
def reservationContent (body : ReqBody) : String :=
  r#"
          <p>Hi "# ++ body.parentName.orDefault "there" ++ r#",</p>
          <p>
            We have received your reservation for
            <strong>"# ++ body.itemName.toStr ++ r#"</strong>
            "# ++ (if body.childName.truthy then "for " ++ body.childName.toStr else "")
    ++ r#".
          </p>
          <p>"# ++ pickupLine body.preferredDay ++ "</p>\n          "
    ++ noteFragment body.note
    ++ r#"
          <p>
            We will send another email when this toy is
            <strong>ready for pickup</strong>.
          </p>
        "#

/-- The first `sendEmail` call of the reservation handler (recipient copy). -/
def reservationRecipientEmail (body : ReqBody) : Email where
  toAddr := body.parentEmail.toStr
  subject := "Reservation received for \"" ++ body.itemName.toStr ++ "\""
  html := renderBrandedEmail "Reservation Received" (reservationContent body) false

/-- The second `sendEmail` call of the reservation handler (admin copy),
sent to `process.env.ADMIN_EMAIL` when that is truthy. -/
def reservationAdminEmail (adminAddr : String) (body : ReqBody) : Email where
  toAddr := adminAddr
  subject := "New reservation: \"" ++ body.itemName.toStr ++ "\""
  html :=
    r#"
          <h3>New Reservation</h3>
          <p><strong>Parent:</strong> "# ++ body.parentName.orDefault "N/A"
      ++ " (" ++ body.parentEmail.toStr ++ r#")</p>
          <p><strong>Child:</strong> "# ++ body.childName.orDefault "N/A"
      ++ r#"</p>
          <p><strong>Item:</strong> "# ++ body.itemName.toStr
      ++ r#"</p>
          <p><strong>Preferred pickup:</strong> "# ++ body.preferredDay.orDefault "N/A"
      ++ r#"</p>
        "#

/-- The handler of `POST /email/reservation-created`.  Returns the HTTP
response and the ordered list of `sendEmail` attempts made. -/
def handleReservationCreated (env : Env) (fail : SendFate) (body : ReqBody) :
    Response × List Email :=
  if !body.parentEmail.truthy || !body.itemName.truthy then
    (⟨400, .error "Missing required fields"⟩, [])
  else
    let recip := reservationRecipientEmail body
    if fail 0 then
      (⟨500, .error "Failed to send email"⟩, [recip])
    else
      let adminAddr := env.adminEmail.getD ""
      if adminAddr ≠ "" then
        let adminMsg := reservationAdminEmail adminAddr body
        if fail 1 then
          (⟨500, .error "Failed to send email"⟩, [recip, adminMsg])
        else
          (⟨200, .ok⟩, [recip, adminMsg])
      else
        (⟨200, .ok⟩, [recip])

/-! ### Route `/email/waitlist-created` -/

/-- The `content` template literal of the waitlist recipient email. -/
def waitlistContent (body : ReqBody) : String :=
  r#"
          <p>Hi "# ++ body.parentName.orDefault "there" ++ r#",</p>
          <p>
            You have been added to the waitlist for
            <strong>"# ++ body.itemName.toStr ++ r#"</strong>
            "# ++ (if body.childName.truthy then "for " ++ body.childName.toStr else "")
    ++ r#".
          </p>
          <p>
            We will contact you as soon as this toy becomes available.
          </p>
        "#

/-- The first `sendEmail` call of the waitlist handler (recipient copy).
The source omits `showPickupInfo` here, so it takes its default `false`. -/
def waitlistRecipientEmail (body : ReqBody) : Email where
  toAddr := body.parentEmail.toStr
  subject := "Waitlist request for \"" ++ body.itemName.toStr ++ "\" received"
  html := renderBrandedEmail "Waitlist Confirmation" (waitlistContent body) false

/-- The second `sendEmail` call of the waitlist handler (admin copy). -/
def waitlistAdminEmail (adminAddr : String) (body : ReqBody) : Email where
  toAddr := adminAddr
  subject := "New waitlist request: \"" ++ body.itemName.toStr ++ "\""
  html :=
    r#"
          <h3>New Waitlist Entry</h3>
          <p><strong>Parent:</strong> "# ++ body.parentName.orDefault "N/A"
      ++ " (" ++ body.parentEmail.toStr ++ r#")</p>
          <p><strong>Child:</strong> "# ++ body.childName.orDefault "N/A"
      ++ r#"</p>
          <p><strong>Item:</strong> "# ++ body.itemName.toStr
      ++ r#"</p>
        "#

/-- The handler of `POST /email/waitlist-created`. -/
def handleWaitlistCreated (env : Env) (fail : SendFate) (body : ReqBody) :
    Response × List Email :=
  if !body.parentEmail.truthy || !body.itemName.truthy then
    (⟨400, .error "Missing required fields"⟩, [])
  else
    let recip := waitlistRecipientEmail body
    if fail 0 then
      (⟨500, .error "Failed to send email"⟩, [recip])
    else
      let adminAddr := env.adminEmail.getD ""
      if adminAddr ≠ "" then
        let adminMsg := waitlistAdminEmail adminAddr body
        if fail 1 then
          (⟨500, .error "Failed to send email"⟩, [recip, adminMsg])
        else
          (⟨200, .ok⟩, [recip, adminMsg])
      else
        (⟨200, .ok⟩, [recip])

/-! ### Route `/email/status-updated` -/

/-- The `content` template literal of the Ready-for-Pickup email. -/
def readyForPickupContent (body : ReqBody) : String :=
  r#"
          <p>Hi "# ++ body.parentName.orDefault "there" ++ r#",</p>
          <p>
            Great news! <strong>"# ++ body.itemName.toStr ++ r#"</strong>
            "# ++ (if body.childName.truthy then "for " ++ body.childName.toStr else "")
    ++ r#" is now
            <strong>ready for pickup</strong>.
          </p>
          "#
    ++ (if body.preferredDay.truthy then
          "<p>You requested pickup on <strong>" ++ body.preferredDay.toStr ++ "</strong>.</p>"
        else "")
    ++ r#"
          <h4>Note: You will be required to show this confirmationemail with you when you come.</h4>
        "#

/-- The `content` template literal of the Returned email. -/
def returnedContent (body : ReqBody) : String :=
  r#"
          <p>Hi "# ++ body.parentName.orDefault "there" ++ r#",</p>
          <p>
            We have marked <strong>"# ++ body.itemName.toStr ++ r#"</strong> as
            <strong>Returned</strong>.
          </p>
          <p>Thank you for using the Toy Lending Library!</p>
        "#

/-- The `subject` local of the status handler: initialised to the generic
`Update for "<itemName>"` and overwritten only in the Ready-for-Pickup
branch. -/
def statusSubject (body : ReqBody) : String :=
  if body.newStatus.eqStr "Ready for Pickup" then
    "🎉 \"" ++ body.itemName.toStr ++ "\" is ready for pickup"
  else
    "Update for \"" ++ body.itemName.toStr ++ "\""

/-- The `html` local of the status handler: initialised to `""`, set by the
Ready-for-Pickup branch (with the pickup-info block) or the Returned branch
(without it), and left empty for any other status. -/
def statusHtml (body : ReqBody) : String :=
  if body.newStatus.eqStr "Ready for Pickup" then
    renderBrandedEmail "Your Toy is Ready for Pickup" (readyForPickupContent body) true
  else if body.newStatus.eqStr "Returned" then
    renderBrandedEmail "Thank You" (returnedContent body) false
  else ""

/-- The single `sendEmail` call of the status handler. -/
def statusEmail (body : ReqBody) : Email where
  toAddr := body.parentEmail.toStr
  subject := statusSubject body
  html := statusHtml body

/-- The handler of `POST /email/status-updated`.  This route reads no
environment variable; it skips (no send) when `newStatus === "On Loan"`. -/
def handleStatusUpdated (fail : SendFate) (body : ReqBody) :
    Response × List Email :=
  if !body.parentEmail.truthy || !body.itemName.truthy || !body.newStatus.truthy then
    (⟨400, .error "Missing required fields"⟩, [])
  else if body.newStatus.eqStr "On Loan" then
    (⟨200, .skipped⟩, [])
  else
    let msg := statusEmail body
    if fail 0 then
      (⟨500, .error "Failed to send email"⟩, [msg])
    else
      (⟨200, .ok⟩, [msg])

/-! ### Claims -/

/-- Claim C1, counterexample to the claim as frozen: a request whose
`newStatus` equals `"On Loan"` but whose required `parentEmail` is missing is
rejected by the validation check (which runs before the suppression rule) with
`400 { error: "Missing required fields" }`, not answered `200 { skipped: true }`
— so the response is not independent of the other fields. -/
theorem c1_counterexample :
    handleStatusUpdated (fun _ => false)
        ⟨.undef, .undef, .undef, .str "Duplo Train", .str "On Loan", .undef, .undef⟩
      = (⟨400, .error "Missing required fields"⟩, []) ∧
    (⟨400, .error "Missing required fields"⟩ : Response) ≠ ⟨200, .skipped⟩ := by
  constructor
  · decide
  · decide

/-- Claim C1 (amended): for every request to `/email/status-updated` whose
`newStatus` field equals `"On Loan"` and whose required fields `parentEmail`
and `itemName` are present (truthy), the handler sends no email (zero calls to
the sender collaborator) and responds `200 { skipped: true }`, regardless of
the remaining fields and of the sender's behaviour. -/
theorem c1_onLoan_suppressed (fail : SendFate) (body : ReqBody)
    (hp : body.parentEmail.truthy = true) (hi : body.itemName.truthy = true)
    (hs : body.newStatus = .str "On Loan") :
    handleStatusUpdated fail body = (⟨200, .skipped⟩, []) := by
  have hn : body.newStatus.truthy = true := by rw [hs]; decide
  have he : body.newStatus.eqStr "On Loan" = true := by rw [hs]; decide
  simp [handleStatusUpdated, hp, hi, hn, he]

/-- Witness for C1: the suppression theorem applied at a concrete request. -/
theorem c1_onLoan_suppressed_witness :
    (JsVal.str "p@x.com").truthy = true ∧
    handleStatusUpdated (fun _ => true)
        ⟨.str "p@x.com", .undef, .undef, .str "Blocks", .str "On Loan", .undef, .undef⟩
      = (⟨200, .skipped⟩, []) :=
  ⟨by decide,
   c1_onLoan_suppressed (fun _ => true)
     ⟨.str "p@x.com", .undef, .undef, .str "Blocks", .str "On Loan", .undef, .undef⟩
     (by decide) (by decide) rfl⟩

/-- Claim C2: a request in which a required field is absent (`parentEmail` or
`itemName` for all three endpoints; additionally `newStatus` for
`/email/status-updated`) is answered `400 { error: "Missing required fields" }`
and no call to the email sender is attempted. -/
theorem c2_missing_required_fields (env : Env) (fail : SendFate) (body : ReqBody) :
    (body.parentEmail = .undef ∨ body.itemName = .undef →
      handleReservationCreated env fail body = (⟨400, .error "Missing required fields"⟩, []) ∧
      handleWaitlistCreated env fail body = (⟨400, .error "Missing required fields"⟩, []) ∧
      handleStatusUpdated fail body = (⟨400, .error "Missing required fields"⟩, [])) ∧
    (body.newStatus = .undef →
      handleStatusUpdated fail body = (⟨400, .error "Missing required fields"⟩, [])) := by
  constructor
  · rintro (h | h) <;>
      exact ⟨by simp [handleReservationCreated, h, JsVal.truthy],
             by simp [handleWaitlistCreated, h, JsVal.truthy],
             by simp [handleStatusUpdated, h, JsVal.truthy]⟩
  · intro h
    simp [handleStatusUpdated, h, JsVal.truthy]

/-- Witness for C2: a request lacking `parentEmail` is rejected with 400 and
no send on the reservation endpoint. -/
theorem c2_missing_required_fields_witness :
    (⟨.undef, .undef, .undef, .str "Blocks", .undef, .undef, .undef⟩ : ReqBody).parentEmail
        = .undef ∧
    handleReservationCreated ⟨some "admin@x.com"⟩ (fun _ => false)
        ⟨.undef, .undef, .undef, .str "Blocks", .undef, .undef, .undef⟩
      = (⟨400, .error "Missing required fields"⟩, []) :=
  ⟨rfl,
   ((c2_missing_required_fields ⟨some "admin@x.com"⟩ (fun _ => false)
       ⟨.undef, .undef, .undef, .str "Blocks", .undef, .undef, .undef⟩).1
     (Or.inl rfl)).1⟩

/-- Claim C3: on any of the three endpoints, if the email-sender collaborator
throws on any attempted send — the recipient send, or the admin copy after a
successful recipient send — the handler responds
`500 { error: "Failed to send email" }`. -/
theorem c3_send_failure_500 (env : Env) (fail : SendFate) (body : ReqBody)
    (hp : body.parentEmail.truthy = true) (hi : body.itemName.truthy = true) :
    (fail 0 = true →
      (handleReservationCreated env fail body).1 = ⟨500, .error "Failed to send email"⟩ ∧
      (handleWaitlistCreated env fail body).1 = ⟨500, .error "Failed to send email"⟩) ∧
    (fail 0 = false → env.adminEmail.getD "" ≠ "" → fail 1 = true →
      (handleReservationCreated env fail body).1 = ⟨500, .error "Failed to send email"⟩ ∧
      (handleWaitlistCreated env fail body).1 = ⟨500, .error "Failed to send email"⟩) ∧
    (body.newStatus.truthy = true → body.newStatus.eqStr "On Loan" = false → fail 0 = true →
      (handleStatusUpdated fail body).1 = ⟨500, .error "Failed to send email"⟩) := by
  refine ⟨fun h0 => ?_, fun h0 ha h1 => ?_, fun hn hol h0 => ?_⟩
  · exact ⟨by simp [handleReservationCreated, hp, hi, h0],
           by simp [handleWaitlistCreated, hp, hi, h0]⟩
  · exact ⟨by simp [handleReservationCreated, hp, hi, h0, ha, h1],
           by simp [handleWaitlistCreated, hp, hi, h0, ha, h1]⟩
  · simp [handleStatusUpdated, hp, hi, hn, hol, h0]

/-- Witness for C3: with a configured admin address, a failing second (admin)
send after a successful recipient send yields 500 on the reservation
endpoint. -/
theorem c3_send_failure_500_witness :
    (JsVal.str "p@x.com").truthy = true ∧
    (handleReservationCreated ⟨some "admin@x.com"⟩ (fun i => i == 1)
        ⟨.str "p@x.com", .undef, .undef, .str "Blocks", .undef, .undef, .undef⟩).1
      = ⟨500, .error "Failed to send email"⟩ :=
  ⟨by decide,
   (((c3_send_failure_500 ⟨some "admin@x.com"⟩ (fun i => i == 1)
       ⟨.str "p@x.com", .undef, .undef, .str "Blocks", .undef, .undef, .undef⟩
       (by decide) (by decide)).2.1 rfl (by decide) rfl).1)⟩

/-- Claim C4: a request to `/email/status-updated` with all required fields
present and a `newStatus` that is none of `"On Loan"`, `"Ready for Pickup"`,
`"Returned"` triggers exactly one send whose subject is the generic
`Update for "<itemName>"` and whose html body is the empty string, and (the
send succeeding) is answered `200 { ok: true }`. -/
theorem c4_unknown_status_empty_email (fail : SendFate) (body : ReqBody)
    (hp : body.parentEmail.truthy = true) (hi : body.itemName.truthy = true)
    (hn : body.newStatus.truthy = true)
    (h1 : body.newStatus.eqStr "On Loan" = false)
    (h2 : body.newStatus.eqStr "Ready for Pickup" = false)
    (h3 : body.newStatus.eqStr "Returned" = false)
    (hok : fail 0 = false) :
    handleStatusUpdated fail body =
      (⟨200, .ok⟩,
       [⟨body.parentEmail.toStr, "Update for \"" ++ body.itemName.toStr ++ "\"", ""⟩]) := by
  simp [handleStatusUpdated, statusEmail, statusSubject, statusHtml,
    hp, hi, hn, h1, h2, h3, hok]

/-- Witness for C4: a concrete request with the unknown status `"Lost"`. -/
theorem c4_unknown_status_empty_email_witness :
    (JsVal.str "Lost").eqStr "Returned" = false ∧
    handleStatusUpdated (fun _ => false)
        ⟨.str "p@x.com", .undef, .undef, .str "Blocks", .str "Lost", .undef, .undef⟩
      = (⟨200, .ok⟩, [⟨"p@x.com", "Update for \"Blocks\"", ""⟩]) :=
  ⟨by decide,
   c4_unknown_status_empty_email (fun _ => false)
     ⟨.str "p@x.com", .undef, .undef, .str "Blocks", .str "Lost", .undef, .undef⟩
     (by decide) (by decide) (by decide) (by decide) (by decide) (by decide) rfl⟩

/-- Claim C9: a required field that is present but falsy (empty string, `0`,
`null`, `false`) is treated exactly like an absent field: the validation uses
truthiness, so every endpoint whose required field is falsy responds
`400 { error: "Missing required fields" }` and attempts no send. -/
theorem c9_falsy_required_field (env : Env) (fail : SendFate) (body : ReqBody) :
    (body.parentEmail.truthy = false ∨ body.itemName.truthy = false →
      handleReservationCreated env fail body = (⟨400, .error "Missing required fields"⟩, []) ∧
      handleWaitlistCreated env fail body = (⟨400, .error "Missing required fields"⟩, []) ∧
      handleStatusUpdated fail body = (⟨400, .error "Missing required fields"⟩, [])) ∧
    (body.newStatus.truthy = false →
      handleStatusUpdated fail body = (⟨400, .error "Missing required fields"⟩, [])) := by
  constructor
  · rintro (h | h) <;>
      exact ⟨by simp [handleReservationCreated, h],
             by simp [handleWaitlistCreated, h],
             by simp [handleStatusUpdated, h]⟩
  · intro h
    simp [handleStatusUpdated, h]

/-- Witness for C9: `parentEmail` present but equal to the empty string (a
falsy value) is rejected exactly like an absent field. -/
theorem c9_falsy_required_field_witness :
    (JsVal.str "").truthy = false ∧
    handleWaitlistCreated ⟨some "admin@x.com"⟩ (fun _ => false)
        ⟨.str "", .undef, .undef, .str "Blocks", .undef, .undef, .undef⟩
      = (⟨400, .error "Missing required fields"⟩, []) :=
  ⟨by decide,
   ((c9_falsy_required_field ⟨some "admin@x.com"⟩ (fun _ => false)
       ⟨.str "", .undef, .undef, .str "Blocks", .undef, .undef, .undef⟩).1
     (Or.inl (by decide))).2.1⟩

/-- Claim C10: the waitlist handler is deterministic and depends only on its
declared request fields and the fixed configuration: two requests agreeing on
`parentEmail`, `parentName`, `childName` and `itemName` produce identical
subjects, rendered html and responses (here: identical full outputs), however
they differ on any other body fields.  `renderBrandedEmail` is a Lean function
of `title`, `content` and `showPickupInfo`, hence pure by construction. -/
theorem c10_waitlist_deterministic (env : Env) (fail : SendFate) (b1 b2 : ReqBody)
    (h1 : b1.parentEmail = b2.parentEmail) (h2 : b1.parentName = b2.parentName)
    (h3 : b1.childName = b2.childName) (h4 : b1.itemName = b2.itemName) :
    handleWaitlistCreated env fail b1 = handleWaitlistCreated env fail b2 := by
  simp only [handleWaitlistCreated, waitlistRecipientEmail, waitlistAdminEmail,
    waitlistContent, h1, h2, h3, h4]

/-- Witness for C10: two concrete waitlist requests that differ only in
`preferredDay` and `note` give the same output. -/
theorem c10_waitlist_deterministic_witness :
    (⟨.str "p@x.com", .str "Dana", .str "Ayo", .str "Blocks", .undef, .str "Monday",
        .str "a note"⟩ : ReqBody).parentEmail
      = (⟨.str "p@x.com", .str "Dana", .str "Ayo", .str "Blocks", .undef, .undef,
          .undef⟩ : ReqBody).parentEmail ∧
    handleWaitlistCreated ⟨some "admin@x.com"⟩ (fun _ => false)
        ⟨.str "p@x.com", .str "Dana", .str "Ayo", .str "Blocks", .undef, .str "Monday",
          .str "a note"⟩
      = handleWaitlistCreated ⟨some "admin@x.com"⟩ (fun _ => false)
        ⟨.str "p@x.com", .str "Dana", .str "Ayo", .str "Blocks", .undef, .undef, .undef⟩ :=
  ⟨rfl,
   c10_waitlist_deterministic ⟨some "admin@x.com"⟩ (fun _ => false)
     ⟨.str "p@x.com", .str "Dana", .str "Ayo", .str "Blocks", .undef, .str "Monday",
       .str "a note"⟩
     ⟨.str "p@x.com", .str "Dana", .str "Ayo", .str "Blocks", .undef, .undef, .undef⟩
     rfl rfl rfl rfl⟩

set_option maxRecDepth 4000

/-- Claim C5: on `/email/reservation-created` with required fields present and
a string `note` containing an embedded newline, the recipient email (always
the first send attempt) has its html render the note inside the
`Your note:` paragraph with every newline replaced by `<br />`
(`jsReplaceNewlines`) and the result trimmed of leading and trailing
whitespace (`jsTrim`), in that order, exactly as
`String(note).replace(/\n/g, "<br />").trim()` computes it. -/
theorem c5_note_newlines_rendered (env : Env) (fail : SendFate) (body : ReqBody) (n : String)
    (hp : body.parentEmail.truthy = true) (hi : body.itemName.truthy = true)
    (hnote : body.note = .str n) (hnl : ContainsChar n '\n') :
    (handleReservationCreated env fail body).2.head? = some (reservationRecipientEmail body) ∧
    ContainsSubstr (reservationRecipientEmail body).html
      ("<p><strong>Your note:</strong><br />" ++ jsTrim (jsReplaceNewlines n) ++ "</p>") := by
  have hne : n ≠ "" := by
    intro h
    rw [h] at hnl
    exact absurd hnl (by decide)
  have ht : body.note.truthy = true := by rw [hnote]; simp [JsVal.truthy, hne]
  have hts : body.note.toStr = n := by rw [hnote]; simp [JsVal.toStr]
  constructor
  · by_cases h0 : fail 0 = true
    · simp [handleReservationCreated, hp, hi, h0]
    · by_cases ha : env.adminEmail.getD "" = ""
      · simp [handleReservationCreated, hp, hi, h0, ha]
      · by_cases h1 : fail 1 = true <;>
          simp [handleReservationCreated, hp, hi, h0, ha, h1]
  · simp only [reservationRecipientEmail, renderBrandedEmail, reservationContent,
      noteFragment, ht, if_true, hts]
    refine contains_left _ (contains_left _ (contains_left _ (contains_right _ ?_)))
    exact contains_left _ (contains_right _ (containsSubstr_self _))

/-- Witness for C5: a concrete note `"  call\nahead  "` with an embedded
newline. -/
theorem c5_note_newlines_rendered_witness :
    ContainsChar "  call\nahead  " '\n' ∧
    (handleReservationCreated ⟨none⟩ (fun _ => false)
        ⟨.str "p@x.com", .undef, .undef, .str "Blocks", .undef, .undef,
          .str "  call\nahead  "⟩).2.head?
      = some (reservationRecipientEmail
          ⟨.str "p@x.com", .undef, .undef, .str "Blocks", .undef, .undef,
            .str "  call\nahead  "⟩) :=
  ⟨by decide,
   (c5_note_newlines_rendered ⟨none⟩ (fun _ => false)
      ⟨.str "p@x.com", .undef, .undef, .str "Blocks", .undef, .undef,
        .str "  call\nahead  "⟩
      "  call\nahead  " (by decide) (by decide) rfl (by decide)).1⟩

/-- Claim C6: on `/email/status-updated` with required fields present and
`newStatus = "Ready for Pickup"`, exactly one email is attempted; its subject
carries the celebratory 🎉 marker and the item name, its body carries the
title "Your Toy is Ready for Pickup", the pickup-location/hours info block,
the `preferredDay` value whenever that field is present (truthy), and the
line instructing the recipient to bring the confirmation email. -/
theorem c6_ready_for_pickup_email (fail : SendFate) (body : ReqBody)
    (hp : body.parentEmail.truthy = true) (hi : body.itemName.truthy = true)
    (hs : body.newStatus = .str "Ready for Pickup") :
    (handleStatusUpdated fail body).2 = [statusEmail body] ∧
    ContainsChar (statusEmail body).subject '🎉' ∧
    ContainsSubstr (statusEmail body).subject body.itemName.toStr ∧
    ContainsSubstr (statusEmail body).html "Your Toy is Ready for Pickup" ∧
    ContainsSubstr (statusEmail body).html PICKUP_INFO_HTML ∧
    (body.preferredDay.truthy = true →
      ContainsSubstr (statusEmail body).html body.preferredDay.toStr) ∧
    ContainsSubstr (statusEmail body).html
      "<h4>Note: You will be required to show this confirmationemail with you when you come.</h4>" := by
  have hn : body.newStatus.truthy = true := by rw [hs]; decide
  have e1 : body.newStatus.eqStr "On Loan" = false := by rw [hs]; decide
  have e2 : body.newStatus.eqStr "Ready for Pickup" = true := by rw [hs]; decide
  refine ⟨?_, ?_, ?_, ?_, ?_, ?_, ?_⟩
  · by_cases h0 : fail 0 = true <;> simp [handleStatusUpdated, hp, hi, hn, e1, h0]
  · simp only [statusEmail, statusSubject, e2, if_true, containsChar_append]
    exact Or.inl (Or.inl (by decide))
  · simp only [statusEmail, statusSubject, e2, if_true]
    exact contains_left _ (contains_right _ (containsSubstr_self _))
  · simp only [statusEmail, statusHtml, e2, if_true, renderBrandedEmail]
    exact contains_left _ (contains_left _ (contains_left _ (contains_left _ (contains_left _
      (contains_right _ (containsSubstr_self _))))))
  · simp only [statusEmail, statusHtml, e2, if_true, renderBrandedEmail]
    exact contains_left _ (contains_right _ (containsSubstr_self _))
  · intro hd
    simp only [statusEmail, statusHtml, e2, if_true, renderBrandedEmail,
      readyForPickupContent, hd]
    exact contains_left _ (contains_left _ (contains_left _ (contains_right _
      (contains_left _ (contains_right _ (contains_left _ (contains_right _
        (containsSubstr_self _))))))))
  · simp only [statusEmail, statusHtml, e2, if_true, renderBrandedEmail,
      readyForPickupContent]
    refine contains_left _ (contains_left _ (contains_left _ (contains_right _
      (contains_right _ ?_))))
    exact contains_of_eq "\n          " "\n        " (by decide)

/-- Witness for C6: a concrete Ready-for-Pickup request with
`preferredDay = "Monday"`. -/
theorem c6_ready_for_pickup_email_witness :
    (JsVal.str "Ready for Pickup").truthy = true ∧
    (handleStatusUpdated (fun _ => false)
        ⟨.str "p@x.com", .str "Dana", .str "Ayo", .str "Blocks",
          .str "Ready for Pickup", .str "Monday", .undef⟩).2
      = [statusEmail
          ⟨.str "p@x.com", .str "Dana", .str "Ayo", .str "Blocks",
            .str "Ready for Pickup", .str "Monday", .undef⟩] :=
  ⟨by decide,
   (c6_ready_for_pickup_email (fun _ => false)
      ⟨.str "p@x.com", .str "Dana", .str "Ayo", .str "Blocks",
        .str "Ready for Pickup", .str "Monday", .undef⟩
      (by decide) (by decide) rfl).1⟩

/-- Claim C7: on `/email/status-updated` with required fields present and
`newStatus = "Returned"`, exactly one email is attempted; its subject is the
generic `Update for "<itemName>"`, its body carries the title "Thank You",
states the item was marked Returned, thanks the user, and does not contain
the pickup-info block.  The two no-📍 hypotheses exclude the degenerate case
where the caller-supplied name fields themselves embed the pickup-block
marker character. -/
theorem c7_returned_email (fail : SendFate) (body : ReqBody)
    (hp : body.parentEmail.truthy = true) (hi : body.itemName.truthy = true)
    (hs : body.newStatus = .str "Returned")
    (hN : ¬ ContainsChar (body.parentName.orDefault "there") '📍')
    (hI : ¬ ContainsChar body.itemName.toStr '📍') :
    (handleStatusUpdated fail body).2 = [statusEmail body] ∧
    (statusEmail body).subject = "Update for \"" ++ body.itemName.toStr ++ "\"" ∧
    ContainsSubstr (statusEmail body).html "Thank You" ∧
    ContainsSubstr (statusEmail body).html
      ("We have marked <strong>" ++ body.itemName.toStr ++ "</strong> as") ∧
    ContainsSubstr (statusEmail body).html "Thank you for using the Toy Lending Library!" ∧
    ¬ ContainsSubstr (statusEmail body).html PICKUP_INFO_HTML := by
  have hn : body.newStatus.truthy = true := by rw [hs]; decide
  have e1 : body.newStatus.eqStr "On Loan" = false := by rw [hs]; decide
  have e2 : body.newStatus.eqStr "Ready for Pickup" = false := by rw [hs]; decide
  have e3 : body.newStatus.eqStr "Returned" = true := by rw [hs]; decide
  refine ⟨?_, ?_, ?_, ?_, ?_, ?_⟩
  · by_cases h0 : fail 0 = true <;> simp [handleStatusUpdated, hp, hi, hn, e1, h0]
  · simp [statusEmail, statusSubject, e2]
  · simp only [statusEmail, statusHtml, e2, e3, Bool.false_eq_true, if_false, if_true,
      renderBrandedEmail]
    exact contains_left _ (contains_left _ (contains_left _ (contains_left _ (contains_left _
      (contains_right _ (containsSubstr_self _))))))
  · simp only [statusEmail, statusHtml, e2, e3, Bool.false_eq_true, if_false, if_true,
      renderBrandedEmail, returnedContent]
    refine contains_left _ (contains_left _ (contains_left _ (contains_right _ ?_)))
    exact contains_mid ",</p>\n          <p>\n            "
      "\n            <strong>Returned</strong>.\n          </p>\n          <p>Thank you for using the Toy Lending Library!</p>\n        "
      (by decide) (by decide)
  · simp only [statusEmail, statusHtml, e2, e3, Bool.false_eq_true, if_false, if_true,
      renderBrandedEmail, returnedContent]
    refine contains_left _ (contains_left _ (contains_left _ (contains_right _
      (contains_right _ ?_))))
    exact contains_of_eq
      "</strong> as\n            <strong>Returned</strong>.\n          </p>\n          <p>"
      "</p>\n        " (by decide)
  · refine not_containsSubstr_of_char '📍' (by decide) ?_
    simp only [statusEmail, statusHtml, e2, e3, Bool.false_eq_true, if_false, if_true,
      renderBrandedEmail, returnedContent]
    simp only [containsChar_append]
    push_neg
    exact ⟨⟨⟨⟨⟨⟨⟨⟨by decide, by decide⟩, by decide⟩, by decide⟩, by decide⟩,
      ⟨⟨⟨⟨by decide, hN⟩, by decide⟩, hI⟩, by decide⟩⟩, by decide⟩, by decide⟩, by decide⟩

/-- Witness for C7: a concrete Returned request. -/
theorem c7_returned_email_witness :
    (JsVal.str "Returned").truthy = true ∧
    (statusEmail
        ⟨.str "p@x.com", .str "Dana", .undef, .str "Blocks", .str "Returned",
          .undef, .undef⟩).subject
      = "Update for \"" ++ "Blocks" ++ "\"" :=
  ⟨by decide,
   (c7_returned_email (fun _ => false)
      ⟨.str "p@x.com", .str "Dana", .undef, .str "Blocks", .str "Returned",
        .undef, .undef⟩
      (by decide) (by decide) rfl (by decide) (by decide)).2.1⟩

/-- Claim C8: on a valid request to `/email/reservation-created` or
`/email/waitlist-created`, with an administrator address configured the
handler makes exactly two sender calls — recipient first, then admin, and the
admin call is not attempted unless the recipient call succeeded — each
carrying the given address and item name verbatim; with no administrator
address configured it makes exactly one. -/
theorem c8_admin_copy_discipline (env : Env) (fail : SendFate) (body : ReqBody)
    (hp : body.parentEmail.truthy = true) (hi : body.itemName.truthy = true) :
    (env.adminEmail.getD "" ≠ "" → fail 0 = false →
      (handleReservationCreated env fail body).2
          = [reservationRecipientEmail body,
             reservationAdminEmail (env.adminEmail.getD "") body] ∧
      (handleWaitlistCreated env fail body).2
          = [waitlistRecipientEmail body,
             waitlistAdminEmail (env.adminEmail.getD "") body]) ∧
    (fail 0 = true →
      (handleReservationCreated env fail body).2 = [reservationRecipientEmail body] ∧
      (handleWaitlistCreated env fail body).2 = [waitlistRecipientEmail body]) ∧
    (env.adminEmail.getD "" = "" →
      (handleReservationCreated env fail body).2 = [reservationRecipientEmail body] ∧
      (handleWaitlistCreated env fail body).2 = [waitlistRecipientEmail body]) ∧
    (reservationRecipientEmail body).toAddr = body.parentEmail.toStr ∧
    (waitlistRecipientEmail body).toAddr = body.parentEmail.toStr ∧
    (reservationAdminEmail (env.adminEmail.getD "") body).toAddr = env.adminEmail.getD "" ∧
    (waitlistAdminEmail (env.adminEmail.getD "") body).toAddr = env.adminEmail.getD "" ∧
    ContainsSubstr (reservationRecipientEmail body).subject body.itemName.toStr ∧
    ContainsSubstr (waitlistRecipientEmail body).subject body.itemName.toStr ∧
    ContainsSubstr (reservationAdminEmail (env.adminEmail.getD "") body).subject
      body.itemName.toStr ∧
    ContainsSubstr (waitlistAdminEmail (env.adminEmail.getD "") body).subject
      body.itemName.toStr := by
  refine ⟨fun ha h0 => ⟨?_, ?_⟩, fun h0 => ⟨?_, ?_⟩, fun ha => ⟨?_, ?_⟩,
    rfl, rfl, rfl, rfl, ?_, ?_, ?_, ?_⟩
  · by_cases h1 : fail 1 = true <;>
      simp [handleReservationCreated, hp, hi, ha, h0, h1]
  · by_cases h1 : fail 1 = true <;>
      simp [handleWaitlistCreated, hp, hi, ha, h0, h1]
  · simp [handleReservationCreated, hp, hi, h0]
  · simp [handleWaitlistCreated, hp, hi, h0]
  · by_cases h0 : fail 0 = true <;>
      simp [handleReservationCreated, hp, hi, ha, h0]
  · by_cases h0 : fail 0 = true <;>
      simp [handleWaitlistCreated, hp, hi, ha, h0]
  · simp only [reservationRecipientEmail]
    exact contains_left _ (contains_right _ (containsSubstr_self _))
  · simp only [waitlistRecipientEmail]
    exact contains_left _ (contains_right _ (containsSubstr_self _))
  · simp only [reservationAdminEmail]
    exact contains_left _ (contains_right _ (containsSubstr_self _))
  · simp only [waitlistAdminEmail]
    exact contains_left _ (contains_right _ (containsSubstr_self _))

/-- Witness for C8: with a configured admin address and a sender that never
fails, a concrete reservation request produces exactly the
recipient-then-admin call sequence. -/
theorem c8_admin_copy_discipline_witness :
    ((⟨some "admin@x.com"⟩ : Env).adminEmail.getD "" ≠ "") ∧
    (handleReservationCreated ⟨some "admin@x.com"⟩ (fun _ => false)
        ⟨.str "p@x.com", .undef, .undef, .str "Blocks", .undef, .undef, .undef⟩).2
      = [reservationRecipientEmail
           ⟨.str "p@x.com", .undef, .undef, .str "Blocks", .undef, .undef, .undef⟩,
         reservationAdminEmail "admin@x.com"
           ⟨.str "p@x.com", .undef, .undef, .str "Blocks", .undef, .undef, .undef⟩] :=
  ⟨by decide,
   ((c8_admin_copy_discipline ⟨some "admin@x.com"⟩ (fun _ => false)
       ⟨.str "p@x.com", .undef, .undef, .str "Blocks", .undef, .undef, .undef⟩
       (by decide) (by decide)).1 (by decide) rfl).1⟩
